import Mathlib

/-!
Shallow embedding of the register-mapped GPU core in `src/src/core/hw/gpu.cpp`
(memory-fill engine, display-transfer / texture-copy engine, command-list
dispatch, register-file access, and the vblank scheduler callback).

Memory traffic is modelled as traces: a fill or copy produces the list of
`(byte offset, byte value)` writes the C++ loops perform, cache flushes and
interrupt signals are collected into lists, and the register file is a
function `Nat → Nat` over word indices.  Machine integers are modelled as
`Nat` (with explicit `% 2 ^ 32` / `% 2 ^ 64` where C++ wraparound matters)
and `Int` for the signed `cycles_late` callback argument.

Declarations that are not part of the excerpt (the register bit-field layout
of `gpu.h`, the interrupt identifiers of `gsp_gpu.h`) are modelled from the
spec as plain structures and enumerations; all control flow below is
translated from `gpu.cpp` itself.
-/

namespace GPUSpec

/-- Modelled from the spec: the interrupt identifiers delivered to the
interrupt sink (`gsp_gpu.h` is outside the excerpt; the constructor names are
exactly the identifiers used by `gpu.cpp`). -/
inductive InterruptId where
  | PSC0
  | PSC1
  | PDC0
  | PDC1
  | PPF
  deriving DecidableEq, Repr

/-- Modelled from the spec: the decoded fields of one memory-fill
configuration (`g_regs.memory_fill_config[i]`).  The bit-field layout lives
in `gpu.h`, outside the excerpt, so the engine below consumes decoded values
directly; `address_start` / `address_end` stand for the physical byte
addresses `GetStartAddress()` / `GetEndAddress()` (the engine's zero test on
the raw `address_start` field agrees with a zero test on the decoded
address). -/
structure FillConfig where
  address_start : Nat
  address_end : Nat
  trigger : Bool
  finished : Bool
  fill_24bit : Bool
  fill_32bit : Bool
  value_24bit_r : Nat
  value_24bit_g : Nat
  value_24bit_b : Nat
  value_32bit : Nat
  value_16bit : Nat
  deriving DecidableEq, Repr

/-- The 24-bit fill loop of `gpu.cpp` lines 130-136:
`for (u8* ptr = start; ptr < end; ptr += 3) { ptr[0..2] = r,g,b; }`,
as the list of `(byte offset, byte value)` stores it performs. -/
def fill24Loop (r g b ptr stop : Nat) : List (Nat × Nat) :=
  if ptr < stop then
    (ptr, r) :: (ptr + 1, g) :: (ptr + 2, b) :: fill24Loop r g b (ptr + 3) stop
  else []
termination_by stop - ptr
decreasing_by omega

/-- The 16-bit fill loop of `gpu.cpp` lines 146-149:
`for (u8* ptr = start; ptr < end; ptr += sizeof(u16)) memcpy(ptr, &v, 2);`,
with the two bytes of the little-endian 16-bit value. -/
def fill16Loop (v ptr stop : Nat) : List (Nat × Nat) :=
  if ptr < stop then
    (ptr, v % 256) :: (ptr + 1, v / 2 ^ 8 % 256) :: fill16Loop v (ptr + 2) stop
  else []
termination_by stop - ptr
decreasing_by omega

/-- The 32-bit fill loop of `gpu.cpp` lines 139-144:
`len = (end - start) / 4; for (i = 0; i < len; ++i) memcpy(&start[4*i], &v, 4);`,
with the four bytes of the little-endian 32-bit value. -/
def fill32Writes (v s stop : Nat) : List (Nat × Nat) :=
  (List.range ((stop - s) / 4)).flatMap fun i =>
    [(s + 4 * i, v % 256), (s + 4 * i + 1, v / 2 ^ 8 % 256),
     (s + 4 * i + 2, v / 2 ^ 16 % 256), (s + 4 * i + 3, v / 2 ^ 24 % 256)]

/-- The software fill body of `gpu.cpp` lines 130-150: the 24-bit branch is
tested first, then the 32-bit branch (guarded by `end > start`), and the
16-bit fill is the fallback. -/
def MemoryFill (c : FillConfig) : List (Nat × Nat) :=
  if c.fill_24bit then
    fill24Loop c.value_24bit_r c.value_24bit_g c.value_24bit_b c.address_start c.address_end
  else if c.fill_32bit then
    if c.address_start < c.address_end then
      fill32Writes c.value_32bit c.address_start c.address_end
    else []
  else
    fill16Loop c.value_16bit c.address_start c.address_end

/-- Observable outcome of one memory-fill trigger: the byte stores performed,
the interrupts signalled, and the final values of the config's `trigger` and
`finished` bits. -/
structure FillOutcome where
  writes : List (Nat × Nat)
  interrupts : List InterruptId
  trigger : Bool
  finished : Bool
  deriving DecidableEq, Repr

/-- The memory-fill trigger handler of `gpu.cpp` lines 113-166: if the
trigger bit is set, a nonzero `address_start` runs the fill (skipped when the
acceleration hook accepts, argument `accel`) and signals PSC0 / PSC1; in
either case the trigger bit is cleared and `finished` is set.  The interrupt
is signalled only inside the nonzero-`address_start` branch. -/
def MemoryFillTrigger (is_second accel : Bool) (c : FillConfig) : FillOutcome :=
  if c.trigger then
    if c.address_start ≠ 0 then
      { writes := if accel then [] else MemoryFill c,
        interrupts := [if is_second then InterruptId.PSC1 else InterruptId.PSC0],
        trigger := false,
        finished := true }
    else
      { writes := [], interrupts := [], trigger := false, finished := true }
  else
    { writes := [], interrupts := [], trigger := c.trigger, finished := c.finished }

/-- Modelled from the spec: the five wire pixel formats of the transfer
engine (the enum lives in `gpu.h`, outside the excerpt). -/
inductive PixelFormat where
  | RGBA8
  | RGB8
  | RGB565
  | RGB5A1
  | RGBA4
  deriving DecidableEq, Repr

/-- Modelled from the spec: bytes per pixel of each wire format (the
4-byte RGBA format, the 3-byte RGB format, and three packed 2-byte
formats); `GPU::Regs::BytesPerPixel` itself lives in `gpu.h`. -/
def BytesPerPixel : PixelFormat → Nat
  | PixelFormat.RGBA8 => 4
  | PixelFormat.RGB8 => 3
  | _ => 2

/-- Modelled from the spec: the raw texture-copy sub-fields of the display
transfer configuration (`config.texture_copy` in `gpu.cpp`); widths and gaps
are stored in 16-byte units and multiplied by 16 by the engine. -/
structure TextureCopyConfig where
  size : Nat
  input_width : Nat
  input_gap : Nat
  output_width : Nat
  output_gap : Nat
  deriving DecidableEq, Repr

/-- Modelled from the spec: the decoded fields of the display-transfer
configuration (`g_regs.display_transfer_config`); the bit-field layout lives
in `gpu.h`, outside the excerpt.  `trigger` is the raw 32-bit trigger word
(the engine tests its bit 0), `scaling` is the raw scaling-mode field
(`NoScale = 0`, `ScaleX = 1`, `ScaleXY = 2`), and the two addresses stand
for `GetPhysicalInputAddress()` / `GetPhysicalOutputAddress()`. -/
structure TransferConfig where
  trigger : Nat
  input_address : Nat
  output_address : Nat
  is_texture_copy : Bool
  scaling : Nat
  input_linear : Bool
  dont_swizzle : Bool
  flip_vertically : Bool
  input_width : Nat
  input_height : Nat
  output_width : Nat
  output_height : Nat
  input_format : PixelFormat
  output_format : PixelFormat
  texture_copy : TextureCopyConfig
  deriving DecidableEq, Repr

/-- The texture-copy loop of `gpu.cpp` lines 196-218, as the list of
`(source offset, destination offset, chunk size)` copies it performs.  Each
iteration copies `min(remaining_input, remaining_output, remaining_size)`
bytes and, when a row is exhausted, resets it and skips that side's gap.
The `fuel` argument bounds the number of iterations; `none` models the C++
loop never terminating (a zero row width with `remaining_size > 0`). -/
def copyLoop (inW inGap outW outGap : Nat) :
    Nat → Nat → Nat → Nat → Nat → Nat → Option (List (Nat × Nat × Nat))
  | 0, rs, _, _, _, _ => if rs = 0 then some [] else none
  | fuel + 1, rs, ri, ro, srcOff, dstOff =>
    if rs = 0 then some []
    else
      let c := min ri (min ro rs)
      let ri2 := ri - c
      let ro2 := ro - c
      let rs2 := rs - c
      let ri3 := if ri2 = 0 then inW else ri2
      let srcOff3 := if ri2 = 0 then srcOff + c + inGap else srcOff + c
      let ro3 := if ro2 = 0 then outW else ro2
      let dstOff3 := if ro2 = 0 then dstOff + c + outGap else dstOff + c
      match copyLoop inW inGap outW outGap fuel rs2 ri3 ro3 srcOff3 dstOff3 with
      | none => none
      | some l => some ((srcOff, dstOff, c) :: l)

/-- One performed blit assignment: destination pixel `(dst_x, dst_y)` is
computed from source pixel `(src_x, src_y)` (the coordinates handed to the
offset computations and the pixel codec in `gpu.cpp` lines 270-346). -/
structure PixAsgn where
  dst_x : Nat
  dst_y : Nat
  src_x : Nat
  src_y : Nat
  deriving DecidableEq, Repr

/-- The inner (x) loop of the display-transfer blit, `gpu.cpp` lines
255-347, restricted to the coordinate bookkeeping: `input_x`/`input_y` are
computed from the current `y` before the vertical flip, then
`y = output_height - y - 1` mutates the loop variable itself when
`flip_vertically` is set, and the destination offset uses the mutated `y`.
The countdown `rem` plays the role of `output_width - x`; the mutated `y`
is threaded to the next iteration and returned, exactly as in the C++
loop. -/
def xIter (flip : Bool) (H hs vs : Nat) : Nat → Nat → Nat → List PixAsgn × Nat
  | _, y, 0 => ([], y)
  | x, y, rem + 1 =>
    let iny := y <<< vs
    let y2 := if flip then H - y - 1 else y
    let r := xIter flip H hs vs (x + 1) y2 rem
    (⟨x, y2, x <<< hs, iny⟩ :: r.1, r.2)

/-- The outer (y) loop of the display-transfer blit, `gpu.cpp` line 254:
`for (u32 y = 0; y < output_height; ++y)`, with the (possibly mutated) `y`
coming back from the inner loop and then incremented.  `fuel` bounds the
number of outer iterations; started at `y = 0` with `fuel = H` it performs
exactly the iterations of the C++ loop (each iteration either increments the
row by one or drives `y` past `H`). -/
def yIter (flip : Bool) (H hs vs W : Nat) : Nat → Nat → List PixAsgn
  | _, 0 => []
  | y, fuel + 1 =>
    if y < H then
      let r := xIter flip H hs vs 0 y W
      r.1 ++ yIter flip H hs vs W (r.2 + 1) fuel
    else []

/-- `int horizontal_scale = config.scaling != config.NoScale ? 1 : 0;`
(`gpu.cpp` line 242). -/
def horizontal_scale (c : TransferConfig) : Nat :=
  if c.scaling ≠ 0 then 1 else 0

/-- `int vertical_scale = config.scaling == config.ScaleXY ? 1 : 0;`
(`gpu.cpp` line 243). -/
def vertical_scale (c : TransferConfig) : Nat :=
  if c.scaling = 2 then 1 else 0

/-- `u32 output_width = config.output_width >> horizontal_scale;`
(`gpu.cpp` line 245). -/
def outputWidth (c : TransferConfig) : Nat :=
  c.output_width >>> horizontal_scale c

/-- `u32 output_height = config.output_height >> vertical_scale;`
(`gpu.cpp` line 246). -/
def outputHeight (c : TransferConfig) : Nat :=
  c.output_height >>> vertical_scale c

/-- Closed form of one even-width row of the flipped blit: starting at
column `x` with the loop variable holding `y`, consecutive column pairs emit
the assignment `dst (x, H-y-1) ← src (x≪hs, y≪vs)` (the flip has not yet
corrupted `y`) followed by `dst (x+1, y) ← src ((x+1)≪hs, (H-y-1)≪vs)` (the
source is sampled from the previous iteration's mutated `y`). -/
def rowPairs (H hs vs : Nat) : Nat → Nat → Nat → List PixAsgn
  | 0, _, _ => []
  | k + 1, x, y =>
    ⟨x, H - y - 1, x <<< hs, y <<< vs⟩ ::
    ⟨x + 1, y, (x + 1) <<< hs, (H - y - 1) <<< vs⟩ ::
    rowPairs H hs vs k (x + 2) y

/-- Closed form of the flipped even-width blit: one `rowPairs` row per
output row `y`, `fuel` rows in total. -/
def rowsConcat (H hs vs k : Nat) : Nat → Nat → List PixAsgn
  | _, 0 => []
  | y, fuel + 1 =>
    if y < H then rowPairs H hs vs k 0 y ++ rowsConcat H hs vs k (y + 1) fuel
    else []

/-- Observable outcome of one display-transfer trigger: cache flushes
`(address, length)` in issue order, texture-copy chunks (`none` when the
copy loop does not terminate), blit pixel assignments, interrupts, and the
final value of the raw trigger word. -/
structure TransferOutcome where
  flushes : List (Nat × Nat)
  chunks : Option (List (Nat × Nat × Nat))
  asgns : List PixAsgn
  interrupts : List InterruptId
  trigger : Nat
  deriving Repr

/-- The display-transfer trigger handler of `gpu.cpp` lines 170-361.  With
bit 0 of the trigger set and the acceleration hook declining (`accel =
false`): texture-copy mode flushes both strided ranges, runs the copy loop,
signals PPF and leaves the switch via `break` — skipping the trigger-clear
at line 357; an out-of-range scaling mode, or linear input combined with a
non-none scaling mode, leaves via `break` before any flush, copy, interrupt
or trigger-clear; otherwise the blit flushes both ranges, performs the pixel
loop, clears the trigger and signals PPF.  An accepted acceleration also
clears the trigger and signals PPF. -/
def DisplayTransferTrigger (accel : Bool) (c : TransferConfig) : TransferOutcome :=
  if c.trigger &&& 1 ≠ 0 then
    if accel then
      { flushes := [], chunks := some [], asgns := [], interrupts := [InterruptId.PPF],
        trigger := 0 }
    else if c.is_texture_copy then
      let inW := c.texture_copy.input_width * 16
      let inGap := c.texture_copy.input_gap * 16
      let outW := c.texture_copy.output_width * 16
      let outGap := c.texture_copy.output_gap * 16
      let sz := c.texture_copy.size
      { flushes := [(c.input_address, sz / inW * (inW + inGap)),
                    (c.output_address, sz / outW * (outW + outGap))],
        chunks := copyLoop inW inGap outW outGap sz sz inW outW 0 0,
        asgns := [],
        interrupts := [InterruptId.PPF],
        trigger := c.trigger }
    else if 2 < c.scaling then
      { flushes := [], chunks := some [], asgns := [], interrupts := [], trigger := c.trigger }
    else if c.input_linear ∧ c.scaling ≠ 0 then
      { flushes := [], chunks := some [], asgns := [], interrupts := [], trigger := c.trigger }
    else
      { flushes := [(c.input_address, c.input_width * c.input_height * BytesPerPixel c.input_format),
                    (c.output_address,
                      outputWidth c * outputHeight c * BytesPerPixel c.output_format)],
        chunks := some [],
        asgns := yIter c.flip_vertically (outputHeight c) (horizontal_scale c)
          (vertical_scale c) (outputWidth c) 0 (outputHeight c),
        interrupts := [InterruptId.PPF],
        trigger := 0 }
  else
    { flushes := [], chunks := some [], asgns := [], interrupts := [], trigger := c.trigger }

/-- Modelled from the spec: the decoded command-processor configuration
(`g_regs.command_processor_config`); the layout lives in `gpu.h`. -/
structure CommandConfig where
  trigger : Nat
  address : Nat
  size : Nat
  deriving DecidableEq, Repr

/-- Observable outcome of one command-processor trigger: the `(buffer
address, word count)` submissions to the command-stream interpreter and the
final trigger word. -/
structure CommandOutcome where
  submitted : List (Nat × Nat)
  trigger : Nat
  deriving DecidableEq, Repr

/-- The command-processor trigger handler of `gpu.cpp` lines 364-382: with
bit 0 set, the buffer is forwarded to `ProcessCommandList` and the trigger
word is cleared; no interrupt is signalled on this path. -/
def CommandProcessorTrigger (c : CommandConfig) : CommandOutcome :=
  if c.trigger &&& 1 ≠ 0 then
    { submitted := [(c.address, c.size)], trigger := 0 }
  else
    { submitted := [], trigger := c.trigger }

/-- The register-file store of `Write` in `gpu.cpp` lines 92-102:
`addr -= VADDR_GPU` (32-bit wraparound), `index = addr / 4`; any access with
`index >= NumIds()` or whose data type is not `u32` returns before touching
`g_regs` (`none`); otherwise the full word at `index` is overwritten and the
side-effect switch dispatches on `index` (returned alongside the new file).
`numIds` abstracts the compile-time register count `Regs::NumIds()` from
`gpu.h`. -/
def GPUWrite (numIds : Nat) (is_u32 : Bool) (regs : Nat → Nat)
    (base rawAddr data : Nat) : Option ((Nat → Nat) × Nat) :=
  let addr := (rawAddr + 2 ^ 32 - base % 2 ^ 32) % 2 ^ 32
  let index := addr / 4
  if numIds ≤ index ∨ is_u32 = false then none
  else some (Function.update regs index (data % 2 ^ 32), index)

/-- The register file after a `Write`: unchanged when the access was
rejected. -/
def GPUWriteRegs (numIds : Nat) (is_u32 : Bool) (regs : Nat → Nat)
    (base rawAddr data : Nat) : Nat → Nat :=
  match GPUWrite numIds is_u32 regs base rawAddr data with
  | none => regs
  | some r => r.1

/-- The register-file load of `Read` in `gpu.cpp` lines 51-63: same address
arithmetic and rejection test as `Write`; a rejected access returns before
assigning `var` (`none`), otherwise `var = g_regs[addr / 4]`. -/
def GPURead (numIds : Nat) (is_u32 : Bool) (regs : Nat → Nat)
    (base rawAddr : Nat) : Option Nat :=
  let addr := (rawAddr + 2 ^ 32 - base % 2 ^ 32) % 2 ^ 32
  if numIds ≤ addr / 4 ∨ is_u32 = false then none
  else some (regs (addr / 4))

/-- The fixed frame period of `gpu.cpp` line 43:
`268123480ull / 60` CPU ticks per 60 Hz frame (integer division). -/
def frame_ticks : Nat := 268123480 / 60

/-- The scheduler state mutated by `VBlankCallback` (`gpu.cpp` lines
40-49): the frame counter and the current / previous frame-skip flags, all
zero / false after `Init()`. -/
structure VBState where
  frame_count : Nat
  g_skip_frame : Bool
  last_skip_frame : Bool
  deriving DecidableEq, Repr

/-- Observable outcome of one vblank firing: the new scheduler state,
whether `SwapBuffers` was called, the interrupts signalled, and the delays
passed to `ScheduleEvent` (as the unsigned 64-bit value of
`frame_ticks - cycles_late`). -/
structure VBOutcome where
  state : VBState
  swapped : Bool
  interrupts : List InterruptId
  scheduled : List Nat
  deriving DecidableEq, Repr

/-- The unsigned 64-bit value of `frame_ticks - cycles_late` in `gpu.cpp`
line 434: the signed `cycles_late` is converted to `u64`, so the
subtraction is taken modulo `2 ^ 64` with no clamping. -/
def vblankDelay (cycles_late : Int) : Nat :=
  (((frame_ticks : Int) - cycles_late).emod (2 ^ 64)).toNat

/-- `VBlankCallback` of `gpu.cpp` lines 409-435: increment the frame
counter, save the previous skip flag, recompute the skip flag as
`(frame_count & frame_skip) != 0`, swap buffers when
`(((frame_skip != 1) ^ last_skip_frame) && last_skip_frame != g_skip_frame)
|| frame_skip == 0`, signal PDC0 and PDC1, and reschedule once at
`frame_ticks - cycles_late`. -/
def VBlankCallback (frame_skip : Nat) (cycles_late : Int) (s : VBState) : VBOutcome :=
  let fc := s.frame_count + 1
  let last := s.g_skip_frame
  let skip := decide (fc &&& frame_skip ≠ 0)
  let swap := (xor (decide (frame_skip ≠ 1)) last && (last != skip)) || decide (frame_skip = 0)
  { state := { frame_count := fc, g_skip_frame := skip, last_skip_frame := last },
    swapped := swap,
    interrupts := [InterruptId.PDC0, InterruptId.PDC1],
    scheduled := [vblankDelay cycles_late] }

/-- The firing sequence from the post-`Init()` state (`frame_count = 0`,
both skip flags false, `gpu.cpp` lines 467-469): final state and the list
of swap decisions of the first `n` firings, all with `cycles_late = 0`. -/
def vbIterate (frame_skip : Nat) : Nat → VBState × List Bool
  | 0 => (⟨0, false, false⟩, [])
  | n + 1 =>
    let p := vbIterate frame_skip n
    let o := VBlankCallback frame_skip 0 p.1
    (o.state, p.2 ++ [o.swapped])

/-- Fill configuration exercising the zero-`address_start` quirk (claims
about `gpu.cpp` lines 113-166). -/
def c1fill : FillConfig :=
  { address_start := 0, address_end := 64, trigger := true, finished := false,
    fill_24bit := false, fill_32bit := false, value_24bit_r := 0, value_24bit_g := 0,
    value_24bit_b := 0, value_32bit := 0, value_16bit := 0 }

/-- Fill configuration with both width-selector flags set over `[0, 4)`. -/
def c8fill : FillConfig :=
  { address_start := 0, address_end := 4, trigger := true, finished := false,
    fill_24bit := true, fill_32bit := true, value_24bit_r := 1, value_24bit_g := 2,
    value_24bit_b := 3, value_32bit := 7, value_16bit := 0 }

/-- 24-bit fill over `[0, 4)` — a range length that is not a multiple of
three. -/
def c10fill24 : FillConfig :=
  { address_start := 0, address_end := 4, trigger := true, finished := false,
    fill_24bit := true, fill_32bit := false, value_24bit_r := 1, value_24bit_g := 2,
    value_24bit_b := 3, value_32bit := 0, value_16bit := 0 }

/-- 16-bit fill over `[0, 3)` — an odd range length. -/
def c10fill16 : FillConfig :=
  { address_start := 0, address_end := 3, trigger := true, finished := false,
    fill_24bit := false, fill_32bit := false, value_24bit_r := 0, value_24bit_g := 0,
    value_24bit_b := 0, value_32bit := 0, value_16bit := 258 }

/-- Display-transfer configuration with linear input and horizontal
scaling — an unsupported combination (claims about `gpu.cpp` lines
230-240). -/
def c2cfg : TransferConfig :=
  { trigger := 1, input_address := 0, output_address := 4096,
    is_texture_copy := false, scaling := 1, input_linear := true,
    dont_swizzle := false, flip_vertically := false,
    input_width := 64, input_height := 64, output_width := 64, output_height := 64,
    input_format := PixelFormat.RGBA8, output_format := PixelFormat.RGB8,
    texture_copy := ⟨0, 0, 0, 0, 0⟩ }

/-- Texture copy of 64 bytes with input rows of 32 bytes and output rows of
16 bytes, no gaps (the spec's texture-copy exactness example). -/
def c3cfg : TransferConfig :=
  { trigger := 1, input_address := 0, output_address := 4096,
    is_texture_copy := true, scaling := 0, input_linear := false,
    dont_swizzle := false, flip_vertically := false,
    input_width := 0, input_height := 0, output_width := 0, output_height := 0,
    input_format := PixelFormat.RGBA8, output_format := PixelFormat.RGBA8,
    texture_copy := { size := 64, input_width := 2, input_gap := 0,
                      output_width := 1, output_gap := 0 } }

/-- Texture copy that runs to completion; used to exhibit the trigger bit
surviving the `break` at `gpu.cpp` line 227. -/
def c4cfg : TransferConfig :=
  { trigger := 1, input_address := 0, output_address := 4096,
    is_texture_copy := true, scaling := 0, input_linear := false,
    dont_swizzle := false, flip_vertically := false,
    input_width := 0, input_height := 0, output_width := 0, output_height := 0,
    input_format := PixelFormat.RGBA8, output_format := PixelFormat.RGBA8,
    texture_copy := { size := 64, input_width := 2, input_gap := 0,
                      output_width := 1, output_gap := 0 } }

/-- Triggered fill used to witness the fill engine's trigger clear. -/
def c4fill : FillConfig :=
  { address_start := 8, address_end := 16, trigger := true, finished := false,
    fill_24bit := false, fill_32bit := true, value_24bit_r := 0, value_24bit_g := 0,
    value_24bit_b := 0, value_32bit := 5, value_16bit := 0 }

/-- Triggered command-list dispatch used to witness its trigger clear. -/
def c4cmd : CommandConfig := { trigger := 1, address := 256, size := 32 }

/-- Triggered plain blit (tiled input, no scaling) used to witness the
display-transfer trigger clear. -/
def c4blit : TransferConfig :=
  { trigger := 1, input_address := 0, output_address := 4096,
    is_texture_copy := false, scaling := 0, input_linear := false,
    dont_swizzle := false, flip_vertically := false,
    input_width := 8, input_height := 8, output_width := 8, output_height := 8,
    input_format := PixelFormat.RGBA8, output_format := PixelFormat.RGBA8,
    texture_copy := ⟨0, 0, 0, 0, 0⟩ }

/-- Vertically flipped blit with an odd effective output width (1 column,
2 rows): the mutated loop variable makes the outer loop stop after a single
row. -/
def c5odd : TransferConfig :=
  { trigger := 1, input_address := 0, output_address := 4096,
    is_texture_copy := false, scaling := 0, input_linear := false,
    dont_swizzle := false, flip_vertically := true,
    input_width := 1, input_height := 2, output_width := 1, output_height := 2,
    input_format := PixelFormat.RGBA8, output_format := PixelFormat.RGBA8,
    texture_copy := ⟨0, 0, 0, 0, 0⟩ }

/-- Vertically flipped blit with an even effective output width (2 columns,
2 rows). -/
def c5even : TransferConfig :=
  { trigger := 1, input_address := 0, output_address := 4096,
    is_texture_copy := false, scaling := 0, input_linear := false,
    dont_swizzle := false, flip_vertically := true,
    input_width := 2, input_height := 2, output_width := 2, output_height := 2,
    input_format := PixelFormat.RGBA8, output_format := PixelFormat.RGBA8,
    texture_copy := ⟨0, 0, 0, 0, 0⟩ }

/-- Every store of the 24-bit fill loop lands strictly below `stop + 2`
(the loop can overshoot the end of the range by at most two bytes). -/
theorem fill24Loop_offset_lt (r g b : Nat) :
    ∀ n ptr stop, stop - ptr ≤ n → ∀ w ∈ fill24Loop r g b ptr stop, w.1 < stop + 2 := by
  intro n
  induction n with
  | zero =>
    intro ptr stop h w hw
    rw [fill24Loop, if_neg (by omega)] at hw
    simp at hw
  | succ n ih =>
    intro ptr stop h w hw
    rw [fill24Loop] at hw
    by_cases hc : ptr < stop
    · rw [if_pos hc] at hw
      simp only [List.mem_cons] at hw
      rcases hw with rfl | rfl | rfl | hw
      · omega
      · omega
      · omega
      · exact ih (ptr + 3) stop (by omega) w hw
    · rw [if_neg hc] at hw
      simp at hw

/-- Every store of the 16-bit fill loop lands strictly below `stop + 1`
(the loop can overshoot the end of the range by at most one byte). -/
theorem fill16Loop_offset_lt (v : Nat) :
    ∀ n ptr stop, stop - ptr ≤ n → ∀ w ∈ fill16Loop v ptr stop, w.1 < stop + 1 := by
  intro n
  induction n with
  | zero =>
    intro ptr stop h w hw
    rw [fill16Loop, if_neg (by omega)] at hw
    simp at hw
  | succ n ih =>
    intro ptr stop h w hw
    rw [fill16Loop] at hw
    by_cases hc : ptr < stop
    · rw [if_pos hc] at hw
      simp only [List.mem_cons] at hw
      rcases hw with rfl | rfl | hw
      · omega
      · omega
      · exact ih (ptr + 2) stop (by omega) w hw
    · rw [if_neg hc] at hw
      simp at hw

/-- Every store of the 32-bit fill loop stays strictly inside the requested
range: the word count is truncated to whole words that fit. -/
theorem fill32Writes_offset_lt (v s stop : Nat) :
    ∀ w ∈ fill32Writes v s stop, w.1 < stop := by
  intro w hw
  simp only [fill32Writes, List.mem_flatMap, List.mem_range] at hw
  obtain ⟨i, hi, hmem⟩ := hw
  have hdiv : (stop - s) / 4 * 4 ≤ stop - s := Nat.div_mul_le_self (stop - s) 4
  simp only [List.mem_cons, List.not_mem_nil, or_false] at hmem
  rcases hmem with rfl | rfl | rfl | rfl <;> simp only <;> omega

/-- C1 (amended): a memory-fill trigger write whose configuration has
`address_start = 0` writes no bytes to memory, clears the trigger bit and
sets the finished flag, but signals no interrupt — the PSC0 / PSC1 signal
fires only in the nonzero-`address_start` branch. -/
theorem C1_zero_start_completes_without_interrupt
    (c : FillConfig) (is_second accel : Bool)
    (ht : c.trigger = true) (h0 : c.address_start = 0) :
    (MemoryFillTrigger is_second accel c).writes = [] ∧
    (MemoryFillTrigger is_second accel c).trigger = false ∧
    (MemoryFillTrigger is_second accel c).finished = true ∧
    (MemoryFillTrigger is_second accel c).interrupts = [] := by
  simp [MemoryFillTrigger, ht, h0]

/-- Witness for C1 at the concrete configuration `c1fill`. -/
theorem C1_witness :
    c1fill.trigger = true ∧ c1fill.address_start = 0 ∧
    ((MemoryFillTrigger false false c1fill).writes = [] ∧
     (MemoryFillTrigger false false c1fill).trigger = false ∧
     (MemoryFillTrigger false false c1fill).finished = true ∧
     (MemoryFillTrigger false false c1fill).interrupts = []) :=
  ⟨rfl, rfl, C1_zero_start_completes_without_interrupt c1fill false false rfl rfl⟩

/-- Counterexample to C1 as stated: a triggered fill with `address_start =
0` signals neither PSC0 (engine A) nor PSC1 (engine B). -/
theorem C1_counterexample :
    c1fill.trigger = true ∧ c1fill.address_start = 0 ∧
    InterruptId.PSC0 ∉ (MemoryFillTrigger false false c1fill).interrupts ∧
    InterruptId.PSC1 ∉ (MemoryFillTrigger true false c1fill).interrupts := by
  decide

/-- C8 (amended): when both the 24-bit and the 32-bit width-selector flags
are set, the fill engine uses the 24-bit pattern — the 24-bit flag is tested
first, so 24-bit takes precedence over 32-bit, which takes precedence over
16-bit. -/
theorem C8_24bit_takes_precedence
    (c : FillConfig) (h24 : c.fill_24bit = true) (_h32 : c.fill_32bit = true) :
    MemoryFill c =
      fill24Loop c.value_24bit_r c.value_24bit_g c.value_24bit_b
        c.address_start c.address_end := by
  simp [MemoryFill, h24]

/-- Witness for C8 at the concrete configuration `c8fill`. -/
theorem C8_witness :
    c8fill.fill_24bit = true ∧ c8fill.fill_32bit = true ∧
    MemoryFill c8fill =
      fill24Loop c8fill.value_24bit_r c8fill.value_24bit_g c8fill.value_24bit_b
        c8fill.address_start c8fill.address_end :=
  ⟨rfl, rfl, C8_24bit_takes_precedence c8fill rfl rfl⟩

/-- Counterexample to C8 as stated: with both width flags set the performed
stores are the repeating 3-byte 24-bit tuple, not the 32-bit pattern. -/
theorem C8_counterexample :
    c8fill.fill_24bit = true ∧ c8fill.fill_32bit = true ∧
    MemoryFill c8fill = [(0, 1), (1, 2), (2, 3), (3, 1), (4, 2), (5, 3)] ∧
    MemoryFill c8fill ≠
      fill32Writes c8fill.value_32bit c8fill.address_start c8fill.address_end := by
  have h : MemoryFill c8fill = [(0, 1), (1, 2), (2, 3), (3, 1), (4, 2), (5, 3)] := by
    simp [MemoryFill, c8fill, fill24Loop]
  refine ⟨rfl, rfl, h, ?_⟩
  rw [h]
  decide

/-- C10: the software fill path can write past `address_end`: over the
4-byte range `[0, 4)` the 24-bit loop stores bytes at offsets 4 and 5 (two
bytes past the end), over the 3-byte range `[0, 3)` the 16-bit loop stores a
byte at offset 3 (one byte past the end); in general the 24-bit loop stays
below `end + 2` and the 16-bit loop below `end + 1`, while the 32-bit loop
truncates to whole words and never reaches `end`. -/
theorem C10_fill_overruns_range :
    (c10fill24.address_end = 4 ∧ (4, 2) ∈ MemoryFill c10fill24 ∧
      (5, 3) ∈ MemoryFill c10fill24) ∧
    (∀ r g b ptr stop, ∀ w ∈ fill24Loop r g b ptr stop, w.1 < stop + 2) ∧
    (c10fill16.address_end = 3 ∧ (3, 1) ∈ MemoryFill c10fill16) ∧
    (∀ v ptr stop, ∀ w ∈ fill16Loop v ptr stop, w.1 < stop + 1) ∧
    (∀ v s stop, ∀ w ∈ fill32Writes v s stop, w.1 < stop) := by
  refine ⟨⟨rfl, ?_, ?_⟩, ?_, ⟨rfl, ?_⟩, ?_, ?_⟩
  · simp [MemoryFill, c10fill24, fill24Loop]
  · simp [MemoryFill, c10fill24, fill24Loop]
  · intro r g b ptr stop w hw
    exact fill24Loop_offset_lt r g b (stop - ptr) ptr stop (le_refl _) w hw
  · simp [MemoryFill, c10fill16, fill16Loop]
  · intro v ptr stop w hw
    exact fill16Loop_offset_lt v (stop - ptr) ptr stop (le_refl _) w hw
  · exact fill32Writes_offset_lt

/-- Witness for C10: the universal bounds instantiated at concrete stores of
concrete fills. -/
theorem C10_witness :
    (c10fill24.address_end = 4 ∧ (4, 2) ∈ MemoryFill c10fill24 ∧
      (5, 3) ∈ MemoryFill c10fill24) ∧
    ((0, 1) : Nat × Nat).1 < 4 + 2 ∧
    ((3, 1) : Nat × Nat).1 < 3 + 1 ∧
    ((0, 7) : Nat × Nat).1 < 4 :=
  ⟨C10_fill_overruns_range.1,
   C10_fill_overruns_range.2.1 1 2 3 0 4 (0, 1) (by simp [fill24Loop]),
   C10_fill_overruns_range.2.2.2.1 258 0 3 (3, 1) (by simp [fill16Loop]),
   C10_fill_overruns_range.2.2.2.2 7 0 4 (0, 7) (by decide)⟩

/-- With positive row widths and enough fuel, the texture-copy loop
terminates and the copied chunk sizes sum to the requested total. -/
theorem copyLoop_completes (inW inGap outW outGap : Nat)
    (hin : 0 < inW) (hout : 0 < outW) :
    ∀ fuel rs ri ro srcOff dstOff, 0 < ri → 0 < ro → rs ≤ fuel →
      ∃ l, copyLoop inW inGap outW outGap fuel rs ri ro srcOff dstOff = some l ∧
        (l.map fun t => t.2.2).sum = rs := by
  intro fuel
  induction fuel with
  | zero =>
    intro rs ri ro srcOff dstOff _ _ hle
    have h0 : rs = 0 := Nat.le_zero.mp hle
    subst h0
    exact ⟨[], by simp [copyLoop], rfl⟩
  | succ fuel ih =>
    intro rs ri ro srcOff dstOff hri hro hle
    by_cases h0 : rs = 0
    · subst h0
      exact ⟨[], by simp [copyLoop], rfl⟩
    · have hcle : min ri (min ro rs) ≤ rs := by omega
      obtain ⟨l, hl, hsum⟩ :=
        ih (rs - min ri (min ro rs))
          (if ri - min ri (min ro rs) = 0 then inW else ri - min ri (min ro rs))
          (if ro - min ri (min ro rs) = 0 then outW else ro - min ri (min ro rs))
          (if ri - min ri (min ro rs) = 0 then srcOff + min ri (min ro rs) + inGap
            else srcOff + min ri (min ro rs))
          (if ro - min ri (min ro rs) = 0 then dstOff + min ri (min ro rs) + outGap
            else dstOff + min ri (min ro rs))
          (by split <;> omega) (by split <;> omega) (by omega)
      refine ⟨(srcOff, dstOff, min ri (min ro rs)) :: l, ?_, ?_⟩
      · simp only [copyLoop, if_neg h0]
        rw [hl]
      · simp only [List.map_cons, List.sum_cons, hsum]
        omega

/-- C2: a software display transfer (non-texture-copy mode) whose
configuration has a scaling mode beyond the two defined ones, or linear
input combined with a non-none scaling mode, performs no flush, no copy, no
pixel write and no interrupt, and leaves the trigger word as written. -/
theorem C2_unsupported_transfer_rejected_before_memory
    (c : TransferConfig)
    (_ht : c.trigger &&& 1 ≠ 0) (hm : c.is_texture_copy = false)
    (hbad : 2 < c.scaling ∨ (c.input_linear = true ∧ c.scaling ≠ 0)) :
    (DisplayTransferTrigger false c).flushes = [] ∧
    (DisplayTransferTrigger false c).chunks = some [] ∧
    (DisplayTransferTrigger false c).asgns = [] ∧
    (DisplayTransferTrigger false c).interrupts = [] ∧
    (DisplayTransferTrigger false c).trigger = c.trigger := by
  rcases hbad with hs | ⟨hl, hs⟩
  · simp [DisplayTransferTrigger, hm, hs]
  · by_cases h2 : 2 < c.scaling
    · simp [DisplayTransferTrigger, hm, h2]
    · simp [DisplayTransferTrigger, hm, h2, hl, hs]

/-- Witness for C2 at the concrete configuration `c2cfg` (linear input with
horizontal scaling). -/
theorem C2_witness :
    (c2cfg.trigger &&& 1 ≠ 0) ∧ c2cfg.is_texture_copy = false ∧
    (c2cfg.input_linear = true ∧ c2cfg.scaling ≠ 0) ∧
    ((DisplayTransferTrigger false c2cfg).flushes = [] ∧
     (DisplayTransferTrigger false c2cfg).chunks = some [] ∧
     (DisplayTransferTrigger false c2cfg).asgns = [] ∧
     (DisplayTransferTrigger false c2cfg).interrupts = [] ∧
     (DisplayTransferTrigger false c2cfg).trigger = c2cfg.trigger) :=
  ⟨by decide, rfl, ⟨rfl, by decide⟩,
   C2_unsupported_transfer_rejected_before_memory c2cfg (by decide) rfl
     (Or.inr ⟨rfl, by decide⟩)⟩

/-- C3: a texture copy with positive input and output row widths
terminates, copies exactly `size` bytes in total, and signals PPF exactly
once. -/
theorem C3_texture_copy_exact (c : TransferConfig)
    (ht : c.trigger &&& 1 ≠ 0) (hm : c.is_texture_copy = true)
    (hin : 0 < c.texture_copy.input_width) (hout : 0 < c.texture_copy.output_width) :
    ∃ l, (DisplayTransferTrigger false c).chunks = some l ∧
      (l.map fun t => t.2.2).sum = c.texture_copy.size ∧
      (DisplayTransferTrigger false c).interrupts = [InterruptId.PPF] := by
  obtain ⟨l, hl, hsum⟩ :=
    copyLoop_completes (c.texture_copy.input_width * 16) (c.texture_copy.input_gap * 16)
      (c.texture_copy.output_width * 16) (c.texture_copy.output_gap * 16)
      (by omega) (by omega)
      c.texture_copy.size c.texture_copy.size
      (c.texture_copy.input_width * 16) (c.texture_copy.output_width * 16)
      0 0 (by omega) (by omega) (le_refl _)
  have ht2 : c.trigger % 2 = 1 := by rw [Nat.and_one_is_mod] at ht; omega
  refine ⟨l, ?_, hsum, ?_⟩
  · simp [DisplayTransferTrigger, ht2, hm]
    exact hl
  · simp [DisplayTransferTrigger, ht2, hm]

/-- Witness for C3 at the concrete configuration `c3cfg` (64 bytes, 32-byte
input rows, 16-byte output rows). -/
theorem C3_witness :
    (c3cfg.trigger &&& 1 ≠ 0) ∧ c3cfg.is_texture_copy = true ∧
    0 < c3cfg.texture_copy.input_width ∧ 0 < c3cfg.texture_copy.output_width ∧
    (∃ l, (DisplayTransferTrigger false c3cfg).chunks = some l ∧
      (l.map fun t => t.2.2).sum = c3cfg.texture_copy.size ∧
      (DisplayTransferTrigger false c3cfg).interrupts = [InterruptId.PPF]) :=
  ⟨by decide, rfl, by decide, by decide,
   C3_texture_copy_exact c3cfg (by decide) rfl (by decide) (by decide)⟩

/-- C4 (amended): the fill, command-dispatch, accelerated-transfer and
software-blit paths all clear their trigger on completion, but a completed
texture copy leaves the trigger word exactly as written — the `break` at
`gpu.cpp` line 227 skips the clear at line 357. -/
theorem C4_trigger_cleared_except_texture_copy :
    (∀ (c : FillConfig) (is_second accel : Bool), c.trigger = true →
      (MemoryFillTrigger is_second accel c).trigger = false) ∧
    (∀ c : CommandConfig, c.trigger &&& 1 ≠ 0 →
      (CommandProcessorTrigger c).trigger = 0) ∧
    (∀ c : TransferConfig, c.trigger &&& 1 ≠ 0 →
      (DisplayTransferTrigger true c).trigger = 0) ∧
    (∀ c : TransferConfig, c.trigger &&& 1 ≠ 0 → c.is_texture_copy = false →
      c.scaling ≤ 2 → (c.input_linear = false ∨ c.scaling = 0) →
      (DisplayTransferTrigger false c).trigger = 0) ∧
    (∀ c : TransferConfig, c.trigger &&& 1 ≠ 0 → c.is_texture_copy = true →
      (DisplayTransferTrigger false c).trigger = c.trigger) := by
  refine ⟨?_, ?_, ?_, ?_, ?_⟩
  · intro c is_second accel ht
    by_cases h0 : c.address_start = 0 <;> simp [MemoryFillTrigger, ht, h0]
  · intro c ht
    have ht2 : c.trigger % 2 = 1 := by rw [Nat.and_one_is_mod] at ht; omega
    simp [CommandProcessorTrigger, ht2]
  · intro c ht
    have ht2 : c.trigger % 2 = 1 := by rw [Nat.and_one_is_mod] at ht; omega
    simp [DisplayTransferTrigger, ht2]
  · intro c ht hm hsc hlin
    have ht2 : c.trigger % 2 = 1 := by rw [Nat.and_one_is_mod] at ht; omega
    have h2 : ¬ 2 < c.scaling := by omega
    rcases hlin with hl | h0
    · simp [DisplayTransferTrigger, ht2, hm, h2, hl]
    · simp [DisplayTransferTrigger, ht2, hm, h2, h0]
  · intro c ht hm
    have ht2 : c.trigger % 2 = 1 := by rw [Nat.and_one_is_mod] at ht; omega
    simp [DisplayTransferTrigger, ht2, hm]

/-- Witness for C4: the cleared triggers at concrete fill, command and blit
configurations, and the surviving trigger of the concrete texture copy. -/
theorem C4_witness :
    (MemoryFillTrigger false false c4fill).trigger = false ∧
    (CommandProcessorTrigger c4cmd).trigger = 0 ∧
    (DisplayTransferTrigger true c4blit).trigger = 0 ∧
    (DisplayTransferTrigger false c4blit).trigger = 0 ∧
    (DisplayTransferTrigger false c4cfg).trigger = c4cfg.trigger :=
  ⟨C4_trigger_cleared_except_texture_copy.1 c4fill false false rfl,
   C4_trigger_cleared_except_texture_copy.2.1 c4cmd (by decide),
   C4_trigger_cleared_except_texture_copy.2.2.1 c4blit (by decide),
   C4_trigger_cleared_except_texture_copy.2.2.2.1 c4blit (by decide) rfl (by decide)
     (Or.inl rfl),
   C4_trigger_cleared_except_texture_copy.2.2.2.2 c4cfg (by decide) rfl⟩

/-- Counterexample to C4 as stated: the concrete texture copy `c4cfg` runs
to completion (all 64 bytes copied, PPF signalled) yet a read of the
trigger cell still returns 1 in the trigger bit. -/
theorem C4_counterexample :
    (DisplayTransferTrigger false c4cfg).chunks =
      some [(0, 0, 16), (16, 16, 16), (32, 32, 16), (48, 48, 16)] ∧
    (DisplayTransferTrigger false c4cfg).interrupts = [InterruptId.PPF] ∧
    (DisplayTransferTrigger false c4cfg).trigger &&& 1 = 1 := by
  decide

/-- C9 (amended): a register access that is not word-sized, or whose word
index `addr / 4` falls outside the register file, is a no-op — `Write`
changes no cell and `Read` leaves the destination unchanged; but a
misaligned word access whose index is in range is not rejected: it is
performed on the containing cell `addr / 4` (the write overwrites that whole
cell, the read returns it). -/
theorem C9_access_rejection
    (numIds : Nat) (is_u32 : Bool) (regs : Nat → Nat) (base rawAddr data : Nat) :
    ((numIds ≤ (rawAddr + 2 ^ 32 - base % 2 ^ 32) % 2 ^ 32 / 4 ∨ is_u32 = false) →
      GPUWriteRegs numIds is_u32 regs base rawAddr data = regs ∧
      GPURead numIds is_u32 regs base rawAddr = none) ∧
    ((rawAddr + 2 ^ 32 - base % 2 ^ 32) % 2 ^ 32 / 4 < numIds → is_u32 = true →
      GPUWriteRegs numIds is_u32 regs base rawAddr data =
        Function.update regs ((rawAddr + 2 ^ 32 - base % 2 ^ 32) % 2 ^ 32 / 4)
          (data % 2 ^ 32) ∧
      GPURead numIds is_u32 regs base rawAddr =
        some (regs ((rawAddr + 2 ^ 32 - base % 2 ^ 32) % 2 ^ 32 / 4))) := by
  constructor
  · intro h
    constructor
    · simp only [GPUWriteRegs, GPUWrite, if_pos h]
    · simp only [GPURead, if_pos h]
  · intro hlt hu
    have h : ¬ (numIds ≤ (rawAddr + 2 ^ 32 - base % 2 ^ 32) % 2 ^ 32 / 4 ∨
        is_u32 = false) := by
      rintro (hc | hc)
      · omega
      · rw [hu] at hc
        simp at hc
    constructor
    · simp only [GPUWriteRegs, GPUWrite, if_neg h]
    · simp only [GPURead, if_neg h]

/-- Witness for C9: an out-of-range word access (raw address 64 against a
4-cell file) is a no-op, and an aligned in-range word access stores and
loads cell 2. -/
theorem C9_witness :
    (GPUWriteRegs 4 true (fun _ => 7) 0 64 9 = (fun _ => 7) ∧
     GPURead 4 true (fun _ => 7) 0 64 = none) ∧
    (GPUWriteRegs 4 true (fun _ => 7) 0 8 9 =
       Function.update (fun _ => 7) ((8 + 2 ^ 32 - 0 % 2 ^ 32) % 2 ^ 32 / 4) (9 % 2 ^ 32) ∧
     GPURead 4 true (fun _ => 7) 0 8 = some 7) :=
  ⟨(C9_access_rejection 4 true (fun _ => 7) 0 64 9).1 (by decide),
   (C9_access_rejection 4 true (fun _ => 7) 0 8 9).2 (by decide) rfl⟩

/-- Counterexample to C9 as stated: the misaligned in-range word write at
raw address 2 (address bits 1:0 nonzero) is not a no-op — it overwrites the
containing cell 0, and the misaligned read returns that cell. -/
theorem C9_counterexample :
    (2 : Nat) % 4 ≠ 0 ∧ (2 : Nat) / 4 < 4 ∧
    GPUWriteRegs 4 true (fun _ => 0) 0 2 5 0 = 5 ∧
    GPURead 4 true (fun _ => 0) 0 2 = some 0 := by
  refine ⟨by decide, by decide, ?_, by decide⟩
  have h : (2 + 2 ^ 32 - 0 % 2 ^ 32) % 2 ^ 32 / 4 = 0 := by decide
  simp [GPUWriteRegs, GPUWrite, h, Function.update]

/-- C6: with `frame_skip = 0` every vblank firing swaps buffers, but with
`frame_skip = 1` the firing sequence from the post-`Init()` state swaps on
the second and fourth firings, not on the first and third — the code
contradicts its own comment (`gpu.cpp` lines 417-418: "swap buffers every
other frame (starting from the first frame)") and the claim. -/
theorem C6_swap_pattern :
    (∀ (cycles_late : Int) (s : VBState),
      (VBlankCallback 0 cycles_late s).swapped = true) ∧
    (vbIterate 1 4).2 = [false, true, false, true] := by
  constructor
  · intro late s
    simp [VBlankCallback]
  · decide

/-- C7 (amended): every firing reschedules exactly one event, at the
unsigned 64-bit value of `frame_ticks - cycles_late`; for
`0 ≤ cycles_late ≤ frame_ticks` this is exactly `frame_ticks - cycles_late`
and never exceeds the period, but no clamping is performed (see the
counterexample for the wraparound). -/
theorem C7_reschedules_once :
    (∀ (frame_skip : Nat) (cycles_late : Int) (s : VBState),
      (VBlankCallback frame_skip cycles_late s).scheduled = [vblankDelay cycles_late]) ∧
    (∀ cycles_late : Int, 0 ≤ cycles_late → cycles_late ≤ (frame_ticks : Int) →
      vblankDelay cycles_late = ((frame_ticks : Int) - cycles_late).toNat ∧
      vblankDelay cycles_late ≤ frame_ticks) := by
  constructor
  · intro fs late s
    rfl
  · intro late h0 hle
    have hft : (frame_ticks : Int) < 2 ^ 64 := by
      norm_num [frame_ticks]
    have hge : 0 ≤ (frame_ticks : Int) - late := by omega
    have hlt : (frame_ticks : Int) - late < 2 ^ 64 := by omega
    have he : ((frame_ticks : Int) - late).emod (2 ^ 64) = (frame_ticks : Int) - late :=
      Int.emod_eq_of_lt hge hlt
    constructor
    · rw [vblankDelay, he]
    · rw [vblankDelay, he]
      omega

/-- Witness for C7 at `cycles_late = 100`. -/
theorem C7_witness :
    (VBlankCallback 0 100 ⟨0, false, false⟩).scheduled = [vblankDelay 100] ∧
    (0 : Int) ≤ 100 ∧ (100 : Int) ≤ (frame_ticks : Int) ∧
    (vblankDelay 100 = ((frame_ticks : Int) - 100).toNat ∧
      vblankDelay 100 ≤ frame_ticks) :=
  ⟨C7_reschedules_once.1 0 100 ⟨0, false, false⟩, by decide, by decide,
   C7_reschedules_once.2 100 (by decide) (by decide)⟩

/-- Counterexample to C7 as stated: one tick of lateness beyond the period
is not clamped — the 64-bit subtraction wraps around to `2 ^ 64 - 1`
ticks. -/
theorem C7_counterexample :
    (VBlankCallback 0 ((frame_ticks : Int) + 1) ⟨0, false, false⟩).scheduled =
      [2 ^ 64 - 1] ∧ frame_ticks < 2 ^ 64 - 1 := by
  decide

/-- One unfolding of the flipped inner blit loop: the assignment samples the
source at the incoming `y` and writes the destination at the mutated
`H - y - 1`, which is also threaded to the next iteration. -/
theorem xIter_true_succ (H hs vs x y rem : Nat) :
    xIter true H hs vs x y (rem + 1) =
      (⟨x, H - y - 1, x <<< hs, y <<< vs⟩ ::
        (xIter true H hs vs (x + 1) (H - y - 1) rem).1,
       (xIter true H hs vs (x + 1) (H - y - 1) rem).2) := rfl

/-- For an even column count the flipped inner loop produces the
`rowPairs` closed form and hands the row variable back unchanged. -/
theorem xIter_flip_even (H hs vs : Nat) :
    ∀ k x y, y < H → xIter true H hs vs x y (2 * k) = (rowPairs H hs vs k x y, y) := by
  intro k
  induction k with
  | zero =>
    intro x y _
    rfl
  | succ k ih =>
    intro x y hy
    have h2 : 2 * (k + 1) = 2 * k + 1 + 1 := by omega
    have hy2 : H - (H - y - 1) - 1 = y := by omega
    rw [h2, xIter_true_succ, xIter_true_succ, hy2, ih (x + 1 + 1) y hy]
    simp [rowPairs]

/-- For an even column count the whole flipped blit is the row-by-row
closed form. -/
theorem yIter_flip_even_eq (H hs vs k : Nat) :
    ∀ fuel y, yIter true H hs vs (2 * k) y fuel = rowsConcat H hs vs k y fuel := by
  intro fuel
  induction fuel with
  | zero =>
    intro y
    rfl
  | succ fuel ih =>
    intro y
    by_cases hy : y < H
    · simp only [yIter, rowsConcat, if_pos hy]
      rw [xIter_flip_even H hs vs k 0 y hy]
      simp only [Prod.fst, Prod.snd]
      rw [ih (y + 1)]
    · simp only [yIter, rowsConcat, if_neg hy]

/-- Each `rowPairs` row holds two assignments per column pair. -/
theorem rowPairs_length (H hs vs : Nat) :
    ∀ k x y, (rowPairs H hs vs k x y).length = 2 * k := by
  intro k
  induction k with
  | zero =>
    intro x y
    rfl
  | succ k ih =>
    intro x y
    simp only [rowPairs, List.length_cons, ih]
    omega

/-- Even columns of a row: `dst (x₀+2m, H-y-1) ← src ((x₀+2m)≪hs, y≪vs)`. -/
theorem mem_rowPairs_even (H hs vs : Nat) :
    ∀ k m x y, m < k →
      (⟨x + 2 * m, H - y - 1, (x + 2 * m) <<< hs, y <<< vs⟩ : PixAsgn) ∈
        rowPairs H hs vs k x y := by
  intro k
  induction k with
  | zero =>
    intro m x y hm
    exact absurd hm (by omega)
  | succ k ih =>
    intro m x y hm
    simp only [rowPairs, List.mem_cons]
    cases m with
    | zero =>
      left
      norm_num
    | succ m =>
      right; right
      have hx : x + 2 * (m + 1) = (x + 2) + 2 * m := by omega
      rw [hx]
      exact ih m (x + 2) y (by omega)

/-- Odd columns of a row: `dst (x₀+2m+1, y) ← src ((x₀+2m+1)≪hs, (H-y-1)≪vs)`. -/
theorem mem_rowPairs_odd (H hs vs : Nat) :
    ∀ k m x y, m < k →
      (⟨x + 2 * m + 1, y, (x + 2 * m + 1) <<< hs, (H - y - 1) <<< vs⟩ : PixAsgn) ∈
        rowPairs H hs vs k x y := by
  intro k
  induction k with
  | zero =>
    intro m x y hm
    exact absurd hm (by omega)
  | succ k ih =>
    intro m x y hm
    simp only [rowPairs, List.mem_cons]
    cases m with
    | zero =>
      right; left
      norm_num
    | succ m =>
      right; right
      have hx : x + 2 * (m + 1) + 1 = (x + 2) + 2 * m + 1 := by omega
      rw [hx]
      exact ih m (x + 2) y (by omega)

/-- Every element of a `rowPairs` row is one of the two per-column-pair
assignment shapes. -/
theorem rowPairs_mem_char (H hs vs : Nat) :
    ∀ k x y a, a ∈ rowPairs H hs vs k x y →
      ∃ m, m < k ∧
        (a = ⟨x + 2 * m, H - y - 1, (x + 2 * m) <<< hs, y <<< vs⟩ ∨
         a = ⟨x + 2 * m + 1, y, (x + 2 * m + 1) <<< hs, (H - y - 1) <<< vs⟩) := by
  intro k
  induction k with
  | zero =>
    intro x y a ha
    simp [rowPairs] at ha
  | succ k ih =>
    intro x y a ha
    simp only [rowPairs, List.mem_cons] at ha
    rcases ha with rfl | rfl | ha
    · exact ⟨0, by omega, Or.inl (by norm_num)⟩
    · exact ⟨0, by omega, Or.inr (by norm_num)⟩
    · obtain ⟨m, hm, hcase⟩ := ih (x + 2) y a ha
      refine ⟨m + 1, by omega, ?_⟩
      have h1 : (x + 2) + 2 * m = x + 2 * (m + 1) := by omega
      rwa [h1] at hcase

/-- Any assignment of row `r` appears in the concatenation of rows starting
at `y₀`, provided row `r` is within reach. -/
theorem mem_rowsConcat (H hs vs k : Nat) :
    ∀ fuel y0 r a, y0 ≤ r → r < H → r < y0 + fuel →
      a ∈ rowPairs H hs vs k 0 r → a ∈ rowsConcat H hs vs k y0 fuel := by
  intro fuel
  induction fuel with
  | zero =>
    intro y0 r a h1 _ h3 _
    exact absurd h3 (by omega)
  | succ fuel ih =>
    intro y0 r a h1 h2 h3 ha
    rw [rowsConcat, if_pos (by omega : y0 < H)]
    rcases Nat.eq_or_lt_of_le h1 with rfl | hlt
    · exact List.mem_append_left _ ha
    · exact List.mem_append_right _ (ih (y0 + 1) r a (by omega) h2 (by omega) ha)

/-- Every element of the row concatenation lies in some row below `H`. -/
theorem rowsConcat_mem_char (H hs vs k : Nat) :
    ∀ fuel y0 a, a ∈ rowsConcat H hs vs k y0 fuel →
      ∃ r, y0 ≤ r ∧ r < H ∧ a ∈ rowPairs H hs vs k 0 r := by
  intro fuel
  induction fuel with
  | zero =>
    intro y0 a ha
    simp [rowsConcat] at ha
  | succ fuel ih =>
    intro y0 a ha
    rw [rowsConcat] at ha
    by_cases hy : y0 < H
    · rw [if_pos hy] at ha
      rcases List.mem_append.mp ha with h | h
      · exact ⟨y0, le_refl _, hy, h⟩
      · obtain ⟨r, hr1, hr2, hr3⟩ := ih (y0 + 1) a h
        exact ⟨r, by omega, hr2, hr3⟩
    · rw [if_neg hy] at ha
      simp at ha

/-- Length of the row concatenation: reached rows times row length. -/
theorem rowsConcat_length (H hs vs k : Nat) :
    ∀ fuel y0, (rowsConcat H hs vs k y0 fuel).length = min fuel (H - y0) * (2 * k) := by
  intro fuel
  induction fuel with
  | zero =>
    intro y0
    simp [rowsConcat]
  | succ fuel ih =>
    intro y0
    by_cases hy : y0 < H
    · rw [rowsConcat, if_pos hy, List.length_append, rowPairs_length, ih]
      have hmin : min (fuel + 1) (H - y0) = min fuel (H - (y0 + 1)) + 1 := by omega
      rw [hmin]
      ring
    · rw [rowsConcat, if_neg hy]
      have h0 : H - y0 = 0 := by omega
      simp [h0]

/-- Complete characterisation of the flipped even-width blit, started as the
code starts it (`y = 0`, `fuel = H`): exactly the mirrored assignments
`dst (x, H-1-y) ← src (x≪hs, y≪vs)` are performed, each destination row
mirrored while the source row is the unflipped one. -/
theorem yIter_flip_even_char (H hs vs k : Nat) :
    (∀ x y, x < 2 * k → y < H →
      (⟨x, H - y - 1, x <<< hs, y <<< vs⟩ : PixAsgn) ∈
        yIter true H hs vs (2 * k) 0 H) ∧
    (∀ a ∈ yIter true H hs vs (2 * k) 0 H, ∃ x y, x < 2 * k ∧ y < H ∧
      a = ⟨x, H - y - 1, x <<< hs, y <<< vs⟩) ∧
    (yIter true H hs vs (2 * k) 0 H).length = 2 * k * H := by
  rw [yIter_flip_even_eq H hs vs k H 0]
  refine ⟨?_, ?_, ?_⟩
  · intro x y hx hy
    rcases Nat.even_or_odd x with hev | hod
    · obtain ⟨m, hm⟩ := hev
      have hmk : m < k := by omega
      have hx2 : x = 0 + 2 * m := by omega
      rw [hx2]
      exact mem_rowsConcat H hs vs k H 0 y _ (by omega) hy (by omega)
        (mem_rowPairs_even H hs vs k m 0 y hmk)
    · obtain ⟨m, hm⟩ := hod
      have hmk : m < k := by omega
      have hy2 : H - y - 1 < H := by omega
      have hr : H - (H - y - 1) - 1 = y := by omega
      have hmem := mem_rowPairs_odd H hs vs k m 0 (H - y - 1) hmk
      rw [hr] at hmem
      have hx2 : x = 0 + 2 * m + 1 := by omega
      rw [hx2]
      exact mem_rowsConcat H hs vs k H 0 (H - y - 1) _ (by omega) hy2 (by omega) hmem
  · intro a ha
    obtain ⟨r, _, hr, hrow⟩ := rowsConcat_mem_char H hs vs k H 0 a ha
    obtain ⟨m, hm, hcase⟩ := rowPairs_mem_char H hs vs k 0 r a hrow
    rcases hcase with rfl | rfl
    · exact ⟨0 + 2 * m, r, by omega, hr, rfl⟩
    · refine ⟨0 + 2 * m + 1, H - r - 1, by omega, by omega, ?_⟩
      have h1 : H - (H - r - 1) - 1 = r := by omega
      rw [h1]
  · rw [rowsConcat_length]
    have h0 : min H (H - 0) = H := by omega
    rw [h0]
    exact Nat.mul_comm H (2 * k)

/-- C5 (amended): for a software display-transfer blit with the
vertical-flip flag set and an even effective output width, the performed
pixel assignments are exactly `dst (x, H-1-y) ← src (x≪hs, y≪vs)` for every
output pixel — each destination y mirrored across the output height with
the source computed from the unflipped position; with an odd effective
output width the mutated loop variable ends the row loop after one row, so
not every output pixel is written (see the counterexample). -/
theorem C5_flip_mirrors_destination (c : TransferConfig) (k : Nat)
    (ht : c.trigger &&& 1 ≠ 0) (hm : c.is_texture_copy = false)
    (hsc : c.scaling ≤ 2) (hlin : c.input_linear = false ∨ c.scaling = 0)
    (hflip : c.flip_vertically = true) (hW : outputWidth c = 2 * k) :
    (∀ x y, x < outputWidth c → y < outputHeight c →
      (⟨x, outputHeight c - y - 1, x <<< horizontal_scale c,
        y <<< vertical_scale c⟩ : PixAsgn) ∈ (DisplayTransferTrigger false c).asgns) ∧
    (∀ a ∈ (DisplayTransferTrigger false c).asgns, ∃ x y, x < outputWidth c ∧
      y < outputHeight c ∧
      a = ⟨x, outputHeight c - y - 1, x <<< horizontal_scale c,
        y <<< vertical_scale c⟩) ∧
    (DisplayTransferTrigger false c).asgns.length = outputWidth c * outputHeight c := by
  have ht2 : c.trigger % 2 = 1 := by rw [Nat.and_one_is_mod] at ht; omega
  have h2 : ¬ 2 < c.scaling := by omega
  have hasgns : (DisplayTransferTrigger false c).asgns =
      yIter true (outputHeight c) (horizontal_scale c) (vertical_scale c)
        (outputWidth c) 0 (outputHeight c) := by
    rcases hlin with hl | h0
    · simp [DisplayTransferTrigger, ht2, hm, h2, hl, hflip]
    · simp [DisplayTransferTrigger, ht2, hm, h2, h0, hflip]
  rw [hasgns, hW]
  exact yIter_flip_even_char (outputHeight c) (horizontal_scale c) (vertical_scale c) k

/-- Witness for C5 at the concrete 2×2 flipped blit `c5even`: the mirrored
assignment of output pixel (1, 0) is performed and all four pixels are
written. -/
theorem C5_witness :
    c5even.flip_vertically = true ∧ outputWidth c5even = 2 * 1 ∧
    (⟨1, 1, 1, 0⟩ : PixAsgn) ∈ (DisplayTransferTrigger false c5even).asgns ∧
    (DisplayTransferTrigger false c5even).asgns.length =
      outputWidth c5even * outputHeight c5even :=
  ⟨rfl, rfl,
   (C5_flip_mirrors_destination c5even 1 (by decide) rfl (by decide) (Or.inl rfl)
      rfl rfl).1 1 0 (by decide) (by decide),
   (C5_flip_mirrors_destination c5even 1 (by decide) rfl (by decide) (Or.inl rfl)
      rfl rfl).2.2⟩

/-- Counterexample to C5 as stated: in the flipped 1×2 blit `c5odd` the
loop variable mutation terminates the row loop after a single row, so only
the assignment `dst (0,1) ← src (0,0)` is performed — the mirrored
assignment for output pixel (0, 1), namely `dst (0,0) ← src (0,1)`, never
happens. -/
theorem C5_counterexample :
    c5odd.flip_vertically = true ∧
    outputWidth c5odd = 1 ∧ outputHeight c5odd = 2 ∧
    (DisplayTransferTrigger false c5odd).asgns = [⟨0, 1, 0, 0⟩] ∧
    (⟨0, 0, 0, 1⟩ : PixAsgn) ∉ (DisplayTransferTrigger false c5odd).asgns := by
  decide

end GPUSpec
